import Mathlib

/-
  Shallow embedding of `src/esp/sim-switch-track.cpp` (MicroCoasterWebApp),
  the ESP32 switch-track firmware.

  Modelling decisions:
  * The mutable globals `currentPosition`, `isAuthenticated` and the two LED
    output pins (`LED_LEFT_PIN`, `LED_RIGHT_PIN`) form the `DeviceState`
    record; each C++ handler becomes a function from `DeviceState` (plus any
    inputs it reads) to the new `DeviceState` together with the list of JSON
    documents it pushes through `webSocket.sendTXT`.
  * An outbound JSON document is the ordered list of field assignments the
    firmware performs on its `JsonDocument` (`JDoc`), with scalar values in
    `JVal`.
  * An inbound message is modelled after the firmware's own view of it: the
    firmware only ever reads `doc["type"]` and `doc["data"]["command"]`, so
    `InMsg` carries those two lookups as `Option String` (`none` = field
    absent or payload unparseable) plus the remaining, never-inspected payload
    fields. ArduinoJson converts an absent/null value to the `String`
    "null" (the serialized representation), which `jsonAsString` reproduces.
  * `millis()` readings enter as `Nat` parameters; the C `unsigned long`
    subtraction in the heartbeat timer is `usub32`.
-/

namespace SwitchTrack

/-- Scalar JSON values the firmware writes into outbound documents. -/
inductive JVal where
  | str (s : String)
  | num (n : Nat)
  | int (i : Int)
deriving DecidableEq, Repr

/-- An outbound JSON document: the ordered field assignments made on the
`JsonDocument` before `serializeJson`/`sendTXT`. -/
abbrev JDoc := List (String × JVal)

/-- Lookup of a field in an outbound document. -/
def JDoc.field (d : JDoc) (k : String) : Option JVal :=
  (d.find? (fun p => p.1 == k)).map (fun p => p.2)

/-- The firmware's global mutable state: `currentPosition`, `isAuthenticated`
and the levels driven on the two LED pins (`true` = HIGH). -/
structure DeviceState where
  currentPosition : String
  isAuthenticated : Bool
  ledLeft : Bool
  ledRight : Bool
deriving DecidableEq, Repr

/-- `const String MODULE_ID = "MC-0001-ST";` -/
def MODULE_ID : String := "MC-0001-ST"

/-- `const String MODULE_PASSWORD = ...;` -/
def MODULE_PASSWORD : String := "F674iaRftVsHGKOA8hq3TI93HQHUaYqZ"

/-- An inbound WebSocket text payload, as the firmware reads it: the results
of the only two lookups it performs (`doc["type"]`, `doc["data"]["command"]`),
`none` when the field is absent or the payload did not parse, plus all other
payload fields, which the firmware never inspects. -/
structure InMsg where
  msgType : Option String
  dataCommand : Option String
  rest : List (String × String)
deriving DecidableEq, Repr

/-- ArduinoJson semantics of `String s = doc[...]` / `.as<String>()`: the
string itself when the value is a string, otherwise the serialized
representation, which for an absent or null value is "null". -/
def jsonAsString : Option String → String
  | some s => s
  | none => "null"

/-- C `unsigned long` (32-bit) subtraction, used by the heartbeat timer. -/
def usub32 (a b : Nat) : Nat :=
  (a % 2 ^ 32 + (2 ^ 32 - b % 2 ^ 32)) % 2 ^ 32

/-- `updateLEDs()`: drives exactly one LED per position, reading the global
`currentPosition`; any other position string leaves both pins untouched. -/
def updateLEDs (s : DeviceState) : DeviceState :=
  if s.currentPosition == "left" then
    { s with ledLeft := true, ledRight := false }
  else if s.currentPosition == "right" then
    { s with ledLeft := false, ledRight := true }
  else
    s

/-- `authenticateModule()`: builds and sends the authentication request.
The state is not modified. -/
def authenticateModule (s : DeviceState) (uptime : Nat) : List JDoc :=
  [[("type", JVal.str "module_identify"),
    ("moduleId", JVal.str MODULE_ID),
    ("password", JVal.str MODULE_PASSWORD),
    ("moduleType", JVal.str "switch-track"),
    ("uptime", JVal.num uptime),
    ("position", JVal.str s.currentPosition)]]

/-- `sendCommandResponse(command, status, position)`: guarded by
`isAuthenticated`; when authenticated, sends one `command_response`. -/
def sendCommandResponse (s : DeviceState) (command status position : String) :
    List JDoc :=
  if !s.isAuthenticated then []
  else
    [[("type", JVal.str "command_response"),
      ("moduleId", JVal.str MODULE_ID),
      ("password", JVal.str MODULE_PASSWORD),
      ("command", JVal.str command),
      ("status", JVal.str status),
      ("position", JVal.str position)]]

/-- `sendHeartbeat()`: guarded by `isAuthenticated`. -/
def sendHeartbeat (s : DeviceState) (uptime : Nat) (wifiRSSI : Int)
    (freeHeap : Nat) : List JDoc :=
  if !s.isAuthenticated then []
  else
    [[("type", JVal.str "heartbeat"),
      ("moduleId", JVal.str MODULE_ID),
      ("password", JVal.str MODULE_PASSWORD),
      ("uptime", JVal.num uptime),
      ("position", JVal.str s.currentPosition),
      ("wifiRSSI", JVal.int wifiRSSI),
      ("freeHeap", JVal.num freeHeap)]]

/-- `sendTelemetry()`: guarded by `isAuthenticated`. -/
def sendTelemetry (s : DeviceState) (uptime : Nat) : List JDoc :=
  if !s.isAuthenticated then []
  else
    [[("type", JVal.str "telemetry"),
      ("moduleId", JVal.str MODULE_ID),
      ("password", JVal.str MODULE_PASSWORD),
      ("uptime", JVal.num uptime),
      ("position", JVal.str s.currentPosition),
      ("status", JVal.str "operational")]]

/-- `handleConnected(payload)`: the payload parameter is never read. Sets
`isAuthenticated = true`, calls `updateLEDs()`, then (after `delay(1000)`)
`sendTelemetry()`. -/
def handleConnected (s : DeviceState) (uptime : Nat) :
    DeviceState × List JDoc :=
  let s := { s with isAuthenticated := true }
  let s := updateLEDs s
  (s, sendTelemetry s uptime)

/-- `handleCommand(payload)`: early return when not authenticated; otherwise
reads `doc["data"]["command"]`, runs the command chain (note that the source
calls `updateLEDs()` inside the switch branches, BEFORE the assignment
`currentPosition = newPosition` that follows the chain), then sends the
command response. -/
def handleCommand (s : DeviceState) (m : InMsg) : DeviceState × List JDoc :=
  if !s.isAuthenticated then (s, [])
  else
    let command := jsonAsString m.dataCommand
    let (newPosition, status, s1) :=
      if command == "switch_left" || command == "left" ||
          command == "switch_to_A" then
        ("left", "success", updateLEDs s)
      else if command == "switch_right" || command == "right" ||
          command == "switch_to_B" then
        ("right", "success", updateLEDs s)
      else if command == "get_position" then
        (s.currentPosition, "success", s)
      else
        (s.currentPosition, "unknown_command", s)
    let s2 := { s1 with currentPosition := newPosition }
    (s2, sendCommandResponse s2 command status s2.currentPosition)

/-- `handleError(payload)`: clears `isAuthenticated` and drives both LED pins
LOW. It performs no transport operation (the socket stays open) and does not
touch `currentPosition`. -/
def handleError (s : DeviceState) : DeviceState :=
  { s with isAuthenticated := false, ledLeft := false, ledRight := false }

/-- The transport lifecycle events delivered to `webSocketEvent`. -/
inductive WSEvent where
  | connected
  | disconnected
  | text (m : InMsg)
deriving DecidableEq, Repr

/-- `webSocketEvent(type, payload, length)`: the event dispatcher. `uptime`
stands for the `millis() - uptimeStart` reading of any message built during
the event. -/
def webSocketEvent (s : DeviceState) (ev : WSEvent) (uptime : Nat) :
    DeviceState × List JDoc :=
  match ev with
  | WSEvent.connected => (s, authenticateModule s uptime)
  | WSEvent.disconnected =>
      ({ s with isAuthenticated := false, ledLeft := false, ledRight := false },
       [])
  | WSEvent.text m =>
      let msgType := jsonAsString m.msgType
      if msgType == "connected" then handleConnected s uptime
      else if msgType == "command" then handleCommand s m
      else if msgType == "error" then (handleError s, [])
      else (s, [])

/-- The heartbeat check in `loop()`: when authenticated and more than 30000 ms
elapsed since `lastHeartbeat`, send a heartbeat and update the timer. Returns
the new `lastHeartbeat` and the messages sent. -/
def loopHeartbeat (s : DeviceState) (now lastHeartbeat uptime : Nat)
    (wifiRSSI : Int) (freeHeap : Nat) : Nat × List JDoc :=
  if s.isAuthenticated && usub32 now lastHeartbeat > 30000 then
    (now, sendHeartbeat s uptime wifiRSSI freeHeap)
  else
    (lastHeartbeat, [])

/-- The seven command strings recognized by `handleCommand`. -/
def recognizedCommands : List String :=
  ["switch_left", "left", "switch_to_A",
   "switch_right", "right", "switch_to_B", "get_position"]

/- Helper lemmas about `updateLEDs`. -/

theorem updateLEDs_currentPosition (s : DeviceState) :
    (updateLEDs s).currentPosition = s.currentPosition := by
  unfold updateLEDs
  split
  · rfl
  · split <;> rfl

theorem updateLEDs_isAuthenticated (s : DeviceState) :
    (updateLEDs s).isAuthenticated = s.isAuthenticated := by
  unfold updateLEDs
  split
  · rfl
  · split <;> rfl

/-- C1: while not authenticated (`isAuthenticated = false`), every inbound
command message is rejected without side effects: the state (position and LED
outputs included) is unchanged and no message at all is sent, in particular no
command response with status "success". -/
theorem C1_unauthenticated_command_rejected (s : DeviceState) (m : InMsg)
    (h : s.isAuthenticated = false) :
    handleCommand s m = (s, []) := by
  simp [handleCommand, h]

/-- Witness for C1 at a concrete unauthenticated state and a concrete
`switch_right` command message. -/
theorem C1_witness :
    handleCommand
      { currentPosition := "left", isAuthenticated := false,
        ledLeft := true, ledRight := false }
      { msgType := some "command", dataCommand := some "switch_right",
        rest := [] } =
    ({ currentPosition := "left", isAuthenticated := false,
       ledLeft := true, ledRight := false }, []) :=
  C1_unauthenticated_command_rejected _ _ rfl

/-- C2: while not authenticated, the heartbeat branch of `loop()` sends
nothing (and leaves the timer alone), and `sendHeartbeat`, `sendTelemetry`
and `sendCommandResponse` each send nothing. -/
theorem C2_no_app_messages_while_unauthenticated (s : DeviceState)
    (now lastHeartbeat uptime : Nat) (wifiRSSI : Int) (freeHeap : Nat)
    (command status position : String)
    (h : s.isAuthenticated = false) :
    loopHeartbeat s now lastHeartbeat uptime wifiRSSI freeHeap =
      (lastHeartbeat, []) ∧
    sendHeartbeat s uptime wifiRSSI freeHeap = [] ∧
    sendTelemetry s uptime = [] ∧
    sendCommandResponse s command status position = [] := by
  refine ⟨?_, ?_, ?_, ?_⟩ <;>
    simp [loopHeartbeat, sendHeartbeat, sendTelemetry, sendCommandResponse, h]

/-- Witness for C2 at a concrete unauthenticated state, with the heartbeat
timer condition elapsed (now - lastHeartbeat = 40000 > 30000). -/
theorem C2_witness :
    loopHeartbeat
      { currentPosition := "left", isAuthenticated := false,
        ledLeft := true, ledRight := false }
      40000 0 40000 (-50) 100000 = (0, []) ∧
    sendHeartbeat
      { currentPosition := "left", isAuthenticated := false,
        ledLeft := true, ledRight := false } 40000 (-50) 100000 = [] ∧
    sendTelemetry
      { currentPosition := "left", isAuthenticated := false,
        ledLeft := true, ledRight := false } 40000 = [] ∧
    sendCommandResponse
      { currentPosition := "left", isAuthenticated := false,
        ledLeft := true, ledRight := false } "get_position" "success" "left"
      = [] :=
  C2_no_app_messages_while_unauthenticated _ 40000 0 40000 (-50) 100000
    "get_position" "success" "left" rfl

/-- C5: a server "error" message clears the authenticated flag (the transport
stays open: the handler performs no transport operation and sends nothing),
drives both LED outputs LOW, and leaves `currentPosition` unchanged. -/
theorem C5_error_deauthenticates (s : DeviceState) (m : InMsg) (uptime : Nat)
    (h : jsonAsString m.msgType = "error") :
    webSocketEvent s (WSEvent.text m) uptime =
      ({ currentPosition := s.currentPosition, isAuthenticated := false,
         ledLeft := false, ledRight := false }, []) := by
  simp [webSocketEvent, handleError, h]

/-- Witness for C5: a concrete "error" message received in the authenticated
state with position "right". -/
theorem C5_witness :
    webSocketEvent
      { currentPosition := "right", isAuthenticated := true,
        ledLeft := false, ledRight := true }
      (WSEvent.text { msgType := some "error", dataCommand := none,
                      rest := [("message", "bad credentials")] }) 5000 =
    ({ currentPosition := "right", isAuthenticated := false,
       ledLeft := false, ledRight := false }, []) :=
  C5_error_deauthenticates _ _ 5000 rfl

/-- C6: a transport Disconnected event, from any prior state, clears the
authenticated flag and sets both LED outputs inactive, leaving
`currentPosition` unchanged; nothing is sent. -/
theorem C6_disconnect_clears_session (s : DeviceState) (uptime : Nat) :
    webSocketEvent s WSEvent.disconnected uptime =
      ({ currentPosition := s.currentPosition, isAuthenticated := false,
         ledLeft := false, ledRight := false }, []) :=
  rfl

/-- C3 (bug evidence): an authenticated device at position "left" with the
LED outputs showing "left" receives "switch_right". The position does become
"right" and the success response reports "right", but the LED outputs do NOT
flip: `updateLEDs()` is called before `currentPosition = newPosition`, so the
left indicator stays active and the right indicator stays inactive while the
response already reports "right" — reported and driven state diverge,
contrary to the claim and to the source's own comment at the call site. -/
theorem C3_outputs_stale_after_switch_right :
    handleCommand
      { currentPosition := "left", isAuthenticated := true,
        ledLeft := true, ledRight := false }
      { msgType := some "command", dataCommand := some "switch_right",
        rest := [] } =
    ({ currentPosition := "right", isAuthenticated := true,
       ledLeft := true, ledRight := false },
     [[("type", JVal.str "command_response"),
       ("moduleId", JVal.str MODULE_ID),
       ("password", JVal.str MODULE_PASSWORD),
       ("command", JVal.str "switch_right"),
       ("status", JVal.str "success"),
       ("position", JVal.str "right")]]) := by
  rfl

/-- C4 (counterexample): on the transport Opened event the single message
sent does not have "identify" in its type field — the firmware writes
"module_identify" there. -/
theorem C4_counterexample_type_field :
    ¬ JDoc.field
        (List.headD
          ((webSocketEvent
            { currentPosition := "left", isAuthenticated := false,
              ledLeft := true, ledRight := false }
            WSEvent.connected 0).2) [])
        "type" = some (JVal.str "identify") := by
  decide

/-- C4 (amended): on the transport Opened event the device sends exactly one
authentication request, whose type field is "module_identify" (not
"identify"), and which contains the module identifier, the credential, the
module class "switch-track", the elapsed uptime and the current position. -/
theorem C4_identify_message_contents (s : DeviceState) (uptime : Nat) :
    (webSocketEvent s WSEvent.connected uptime).1 = s ∧
    (webSocketEvent s WSEvent.connected uptime).2.length = 1 ∧
    JDoc.field
        (List.headD (webSocketEvent s WSEvent.connected uptime).2 []) "type"
      = some (JVal.str "module_identify") ∧
    JDoc.field
        (List.headD (webSocketEvent s WSEvent.connected uptime).2 [])
        "moduleId" = some (JVal.str MODULE_ID) ∧
    JDoc.field
        (List.headD (webSocketEvent s WSEvent.connected uptime).2 [])
        "password" = some (JVal.str MODULE_PASSWORD) ∧
    JDoc.field
        (List.headD (webSocketEvent s WSEvent.connected uptime).2 [])
        "moduleType" = some (JVal.str "switch-track") ∧
    JDoc.field
        (List.headD (webSocketEvent s WSEvent.connected uptime).2 [])
        "uptime" = some (JVal.num uptime) ∧
    JDoc.field
        (List.headD (webSocketEvent s WSEvent.connected uptime).2 [])
        "position" = some (JVal.str s.currentPosition) :=
  ⟨rfl, rfl, rfl, rfl, rfl, rfl, rfl, rfl⟩

/-- C7: while authenticated, a command outside the recognized set leaves the
state (position and outputs) unchanged and is answered — not dropped — with a
single command response carrying the command, status "unknown_command" and
the unchanged position. -/
theorem C7_unknown_command_answered (s : DeviceState) (m : InMsg)
    (hauth : s.isAuthenticated = true)
    (hcmd : jsonAsString m.dataCommand ∉ recognizedCommands) :
    handleCommand s m =
      (s, [[("type", JVal.str "command_response"),
            ("moduleId", JVal.str MODULE_ID),
            ("password", JVal.str MODULE_PASSWORD),
            ("command", JVal.str (jsonAsString m.dataCommand)),
            ("status", JVal.str "unknown_command"),
            ("position", JVal.str s.currentPosition)]]) := by
  simp only [recognizedCommands, List.mem_cons, List.not_mem_nil,
    not_or] at hcmd
  obtain ⟨h1, h2, h3, h4, h5, h6, h7, -⟩ := hcmd
  obtain ⟨pos, auth, l, r⟩ := s
  subst hauth
  simp [handleCommand, sendCommandResponse, h1, h2, h3, h4, h5, h6, h7]

/-- Witness for C7: the command "nonsense" received while authenticated at
position "left". -/
theorem C7_witness :
    handleCommand
      { currentPosition := "left", isAuthenticated := true,
        ledLeft := true, ledRight := false }
      { msgType := some "command", dataCommand := some "nonsense",
        rest := [] } =
    ({ currentPosition := "left", isAuthenticated := true,
       ledLeft := true, ledRight := false },
     [[("type", JVal.str "command_response"),
       ("moduleId", JVal.str MODULE_ID),
       ("password", JVal.str MODULE_PASSWORD),
       ("command", JVal.str "nonsense"),
       ("status", JVal.str "unknown_command"),
       ("position", JVal.str "left")]]) :=
  C7_unknown_command_answered _ _ rfl (by decide)

/-- C8 (counterexample): a message of type "command" whose `data.command`
field is absent is NOT dropped without a response: received while
authenticated, it is answered (ArduinoJson reads the absent field as the
string "null", which falls into the unknown-command branch and sends a
command response). -/
theorem C8_counterexample_absent_command_answered :
    ¬ (webSocketEvent
        { currentPosition := "left", isAuthenticated := true,
          ledLeft := true, ledRight := false }
        (WSEvent.text { msgType := some "command", dataCommand := none,
                        rest := [] }) 0).2 = [] := by
  decide

/-- C8 (amended): an inbound message whose type discriminator is none of
"connected"/"command"/"error" — which includes an unparseable payload, where
every lookup yields null, read back as "null" — is dropped with no state
change and no response. A message of type "command" with absent
`data.command`, however, is treated as the unknown command "null": the state
is still unchanged, but while authenticated a command response with status
"unknown_command" is sent rather than nothing. -/
theorem C8_malformed_message_dispatch (s : DeviceState) (m m2 : InMsg)
    (uptime : Nat)
    (hdrop : jsonAsString m.msgType ∉ ["connected", "command", "error"])
    (htype : m2.msgType = some "command") (habsent : m2.dataCommand = none)
    (hauth : s.isAuthenticated = true) :
    webSocketEvent s (WSEvent.text m) uptime = (s, []) ∧
    webSocketEvent s (WSEvent.text m2) uptime =
      (s, [[("type", JVal.str "command_response"),
            ("moduleId", JVal.str MODULE_ID),
            ("password", JVal.str MODULE_PASSWORD),
            ("command", JVal.str "null"),
            ("status", JVal.str "unknown_command"),
            ("position", JVal.str s.currentPosition)]]) := by
  simp only [List.mem_cons, List.not_mem_nil, not_or] at hdrop
  obtain ⟨hd1, hd2, hd3, -⟩ := hdrop
  obtain ⟨pos, auth, l, r⟩ := s
  subst hauth
  constructor
  · simp [webSocketEvent, hd1, hd2, hd3]
  · simp [webSocketEvent, handleCommand, sendCommandResponse, htype, habsent,
      jsonAsString]

/-- Witness for C8: a concrete message with unknown type "pong" is dropped,
and a concrete type-"command" message with no `data.command` field is
answered with an "unknown_command" response. -/
theorem C8_witness :
    webSocketEvent
      { currentPosition := "left", isAuthenticated := true,
        ledLeft := true, ledRight := false }
      (WSEvent.text { msgType := some "pong", dataCommand := none,
                      rest := [] }) 7 =
      ({ currentPosition := "left", isAuthenticated := true,
         ledLeft := true, ledRight := false }, []) ∧
    webSocketEvent
      { currentPosition := "left", isAuthenticated := true,
        ledLeft := true, ledRight := false }
      (WSEvent.text { msgType := some "command", dataCommand := none,
                      rest := [] }) 7 =
      ({ currentPosition := "left", isAuthenticated := true,
         ledLeft := true, ledRight := false },
       [[("type", JVal.str "command_response"),
         ("moduleId", JVal.str MODULE_ID),
         ("password", JVal.str MODULE_PASSWORD),
         ("command", JVal.str "null"),
         ("status", JVal.str "unknown_command"),
         ("position", JVal.str "left")]]) :=
  C8_malformed_message_dispatch _ _ _ 7 (by decide) rfl rfl rfl

/-- C9: while authenticated, applying any recognized command twice in
succession yields the same final position as applying it once, and each of
the two applications emits exactly one command response, with status
"success". -/
theorem C9_recognized_commands_idempotent (s : DeviceState) (m : InMsg)
    (hauth : s.isAuthenticated = true)
    (hrec : jsonAsString m.dataCommand ∈ recognizedCommands) :
    (handleCommand (handleCommand s m).1 m).1.currentPosition =
      (handleCommand s m).1.currentPosition ∧
    (handleCommand s m).2.length = 1 ∧
    (handleCommand (handleCommand s m).1 m).2.length = 1 ∧
    JDoc.field (List.headD (handleCommand s m).2 []) "status" =
      some (JVal.str "success") ∧
    JDoc.field (List.headD (handleCommand (handleCommand s m).1 m).2 [])
        "status" = some (JVal.str "success") := by
  simp only [recognizedCommands, List.mem_cons, List.not_mem_nil,
    or_false] at hrec
  obtain ⟨pos, auth, l, r⟩ := s
  subst hauth
  rcases hrec with h | h | h | h | h | h | h <;>
    simp [handleCommand, sendCommandResponse, h, JDoc.field,
      updateLEDs_isAuthenticated, updateLEDs_currentPosition]

/-- Witness for C9: the command "switch_right" applied twice from the
authenticated "left" state. -/
theorem C9_witness :
    (handleCommand
      (handleCommand
        { currentPosition := "left", isAuthenticated := true,
          ledLeft := true, ledRight := false }
        { msgType := some "command", dataCommand := some "switch_right",
          rest := [] }).1
      { msgType := some "command", dataCommand := some "switch_right",
        rest := [] }).1.currentPosition =
      (handleCommand
        { currentPosition := "left", isAuthenticated := true,
          ledLeft := true, ledRight := false }
        { msgType := some "command", dataCommand := some "switch_right",
          rest := [] }).1.currentPosition ∧
    (handleCommand
      { currentPosition := "left", isAuthenticated := true,
        ledLeft := true, ledRight := false }
      { msgType := some "command", dataCommand := some "switch_right",
        rest := [] }).2.length = 1 ∧
    (handleCommand
      (handleCommand
        { currentPosition := "left", isAuthenticated := true,
          ledLeft := true, ledRight := false }
        { msgType := some "command", dataCommand := some "switch_right",
          rest := [] }).1
      { msgType := some "command", dataCommand := some "switch_right",
        rest := [] }).2.length = 1 ∧
    JDoc.field (List.headD (handleCommand
      { currentPosition := "left", isAuthenticated := true,
        ledLeft := true, ledRight := false }
      { msgType := some "command", dataCommand := some "switch_right",
        rest := [] }).2 []) "status" = some (JVal.str "success") ∧
    JDoc.field (List.headD (handleCommand
      (handleCommand
        { currentPosition := "left", isAuthenticated := true,
          ledLeft := true, ledRight := false }
        { msgType := some "command", dataCommand := some "switch_right",
          rest := [] }).1
      { msgType := some "command", dataCommand := some "switch_right",
        rest := [] }).2 []) "status" = some (JVal.str "success") :=
  C9_recognized_commands_idempotent _ _ rfl (by decide)

/-- C10: any two inbound messages whose type field is "connected" are
processed identically, whatever their other payload content (none of it is
read): the device becomes authenticated, the position is unchanged, and
exactly one message is sent — a telemetry message with status "operational"
and the current position. -/
theorem C10_connected_ignores_payload (s : DeviceState) (uptime : Nat)
    (m1 m2 : InMsg)
    (h1 : m1.msgType = some "connected")
    (h2 : m2.msgType = some "connected") :
    webSocketEvent s (WSEvent.text m1) uptime =
      webSocketEvent s (WSEvent.text m2) uptime ∧
    (webSocketEvent s (WSEvent.text m1) uptime).1.isAuthenticated = true ∧
    (webSocketEvent s (WSEvent.text m1) uptime).1.currentPosition =
      s.currentPosition ∧
    (webSocketEvent s (WSEvent.text m1) uptime).2.length = 1 ∧
    JDoc.field
        (List.headD (webSocketEvent s (WSEvent.text m1) uptime).2 []) "type"
      = some (JVal.str "telemetry") ∧
    JDoc.field
        (List.headD (webSocketEvent s (WSEvent.text m1) uptime).2 []) "status"
      = some (JVal.str "operational") ∧
    JDoc.field
        (List.headD (webSocketEvent s (WSEvent.text m1) uptime).2 [])
        "position" = some (JVal.str s.currentPosition) := by
  obtain ⟨pos, auth, l, r⟩ := s
  simp [webSocketEvent, handleConnected, sendTelemetry, h1, h2, jsonAsString,
    JDoc.field, updateLEDs_isAuthenticated, updateLEDs_currentPosition]

/-- Witness for C10: two concrete "connected" messages differing in every
other payload field, received in the unauthenticated boot state. -/
theorem C10_witness :
    webSocketEvent
      { currentPosition := "left", isAuthenticated := false,
        ledLeft := true, ledRight := false }
      (WSEvent.text { msgType := some "connected",
                      dataCommand := some "switch_right",
                      rest := [("a", "1")] }) 3 =
      webSocketEvent
        { currentPosition := "left", isAuthenticated := false,
          ledLeft := true, ledRight := false }
        (WSEvent.text { msgType := some "connected",
                        dataCommand := some "nonsense",
                        rest := [("b", "2")] }) 3 ∧
    (webSocketEvent
      { currentPosition := "left", isAuthenticated := false,
        ledLeft := true, ledRight := false }
      (WSEvent.text { msgType := some "connected",
                      dataCommand := some "switch_right",
                      rest := [("a", "1")] }) 3).1.isAuthenticated = true ∧
    (webSocketEvent
      { currentPosition := "left", isAuthenticated := false,
        ledLeft := true, ledRight := false }
      (WSEvent.text { msgType := some "connected",
                      dataCommand := some "switch_right",
                      rest := [("a", "1")] }) 3).1.currentPosition =
      "left" ∧
    (webSocketEvent
      { currentPosition := "left", isAuthenticated := false,
        ledLeft := true, ledRight := false }
      (WSEvent.text { msgType := some "connected",
                      dataCommand := some "switch_right",
                      rest := [("a", "1")] }) 3).2.length = 1 ∧
    JDoc.field (List.headD (webSocketEvent
      { currentPosition := "left", isAuthenticated := false,
        ledLeft := true, ledRight := false }
      (WSEvent.text { msgType := some "connected",
                      dataCommand := some "switch_right",
                      rest := [("a", "1")] }) 3).2 []) "type" =
      some (JVal.str "telemetry") ∧
    JDoc.field (List.headD (webSocketEvent
      { currentPosition := "left", isAuthenticated := false,
        ledLeft := true, ledRight := false }
      (WSEvent.text { msgType := some "connected",
                      dataCommand := some "switch_right",
                      rest := [("a", "1")] }) 3).2 []) "status" =
      some (JVal.str "operational") ∧
    JDoc.field (List.headD (webSocketEvent
      { currentPosition := "left", isAuthenticated := false,
        ledLeft := true, ledRight := false }
      (WSEvent.text { msgType := some "connected",
                      dataCommand := some "switch_right",
                      rest := [("a", "1")] }) 3).2 []) "position" =
      some (JVal.str "left") :=
  C10_connected_ignores_payload _ 3 _ _ rfl rfl

end SwitchTrack
